import Mathlib

/-!
Shallow embedding of the `data-analyzer` front-end core: the Root Layout
(`src/app/layout.tsx`) and the Home View (`src/app/page.tsx`).

JSX markup is embedded as a tree of elements (tag, attribute list, children)
and text nodes. Class lists appear exactly as the `className` strings in the
source. JSX trims the whitespace that surrounds a multi-line text child, so
the paragraph's text child is the single line it contains.
-/

/-- A rendered markup node: an element with a tag, attributes and children,
or a text node. -/
inductive Node where
  | element (tag : String) (attrs : List (String × String)) (children : List Node)
  | text (s : String)
deriving Repr

/-- Options accepted by a `next/font/google` loader call, as written in
`src/app/layout.tsx` lines 5-9. The CSS variable option is called
`variable` in the source; `variable` is a reserved word here, so the field
is named `fontVariable`. -/
structure FontOptions where
  weight : List String
  fontVariable : String
  subsets : List String
deriving DecidableEq, Repr

/-- A resolved font token as exposed by `next/font/google`: the requested
options plus the family it is bound to, the family's classification, and
the generated class name that binds the CSS variable on an element. -/
structure NextFont where
  weight : List String
  fontVariable : String
  subsets : List String
  family : String
  category : String
  className : String
deriving DecidableEq, Repr

/-- Modelled from the spec: the `Courier_Prime` loader imported from
`next/font/google` is not under `src/`; per the spec the font token is "a
named style variable bound to a specific font family" that is "resolved
once at build/start time and applied globally via a class/attribute on the
document body", the family being monospace-classed. The generated class
name is modelled as a deterministic token derived from the variable name. -/
def Courier_Prime (opts : FontOptions) : NextFont :=
  { weight := opts.weight
    fontVariable := opts.fontVariable
    subsets := opts.subsets
    family := "Courier Prime"
    category := "monospace"
    className := "__variable" ++ opts.fontVariable }

/-- `const courier = Courier_Prime({...})`, `src/app/layout.tsx` lines 5-9. -/
def courier : NextFont :=
  Courier_Prime
    { weight := ["400", "700"]
      fontVariable := "--font-courier"
      subsets := ["latin"] }

/-- The fonts declared by this core: `src/app/layout.tsx` declares exactly
one font constant, `courier`, and `src/app/page.tsx` declares none. -/
def declaredFonts : List NextFont := [courier]

/-- Page metadata: document title and description. -/
structure Metadata where
  title : String
  description : String
deriving DecidableEq, Repr

/-- `export const metadata`, `src/app/layout.tsx` lines 11-14. -/
def metadata : Metadata :=
  { title := "Data Analyzer"
    description := "Powerful data analysis and visualization dashboard" }

/-- `RootLayout({ children })`, `src/app/layout.tsx` lines 16-30: an
`<html lang="en">` element whose sole child is a `<body>` carrying the
class string `` `${courier.variable} antialiased` `` and containing
exactly the nested `children`. -/
def RootLayout (children : Node) : Node :=
  Node.element "html" [("lang", "en")]
    [Node.element "body" [("className", courier.className ++ " antialiased")]
      [children]]

/-- `Home()`, `src/app/page.tsx` lines 1-12: a constant function of no
arguments producing the default route's content. -/
def Home (_ : Unit) : Node :=
  Node.element "div" [("className", "min-h-screen p-8 font-mono")]
    [Node.element "main" [("className", "max-w-4xl mx-auto")]
      [Node.element "h1" [("className", "text-4xl font-bold mb-8")]
        [Node.text "Data Analyzer"],
       Node.element "p" [("className", "text-lg text-foreground/80")]
        [Node.text "Welcome to your data analysis dashboard."]]]

/-- The document produced for the default (root) route: the Root Layout
wrapping the Home View as its nested content. -/
def defaultDocument : Node := RootLayout (Home ())

mutual

/-- Concatenated text content of a node's descendants. -/
def textContent : Node → String
  | Node.text s => s
  | Node.element _ _ cs => textContentList cs

/-- Concatenated text content of a list of nodes. -/
def textContentList : List Node → String
  | [] => ""
  | n :: ns => textContent n ++ textContentList ns

end

mutual

/-- Number of nodes in a tree (the node itself included) satisfying `p`. -/
def countNodes (p : Node → Bool) : Node → Nat
  | Node.text s => if p (Node.text s) then 1 else 0
  | Node.element t a cs =>
      (if p (Node.element t a cs) then 1 else 0) + countNodesList p cs

/-- Number of nodes across a list of trees satisfying `p`. -/
def countNodesList (p : Node → Bool) : List Node → Nat
  | [] => 0
  | n :: ns => countNodes p n + countNodesList p ns

end

/-- Serialize an attribute list. -/
def renderAttrs : List (String × String) → String
  | [] => ""
  | (k, v) :: ps => " " ++ k ++ "=\"" ++ v ++ "\"" ++ renderAttrs ps

mutual

/-- Serialize a node to its output markup string. -/
def render : Node → String
  | Node.text s => s
  | Node.element t a cs =>
      "<" ++ t ++ renderAttrs a ++ ">" ++ renderList cs ++ "</" ++ t ++ ">"

/-- Serialize a list of nodes. -/
def renderList : List Node → String
  | [] => ""
  | n :: ns => render n ++ renderList ns

end

/-- The HTML heading tags. -/
def headingTags : List String := ["h1", "h2", "h3", "h4", "h5", "h6"]

/-- Is this node a heading element whose text content is exactly `s`? -/
def isHeadingWithText (s : String) : Node → Bool
  | Node.element t _ cs => headingTags.contains t && textContentList cs == s
  | Node.text _ => false

/-- Is this node a paragraph element whose text content is exactly `s`? -/
def isParagraphWithText (s : String) : Node → Bool
  | Node.element t _ cs => t == "p" && textContentList cs == s
  | Node.text _ => false

/-- The `lang` attribute of a document's root element, when present. -/
def docLang : Node → Option String
  | Node.element "html" attrs _ => (attrs.find? (fun p => p.1 == "lang")).map Prod.snd
  | _ => none

/-- The children of the first `body` element directly under the document
root, when the document has the `html > body` shape. -/
def bodyChildren : Node → Option (List Node)
  | Node.element "html" _ cs =>
      match cs.find? (fun n => match n with
        | Node.element "body" _ _ => true
        | _ => false) with
      | some (Node.element _ _ bs) => some bs
      | _ => none
  | _ => none

/-- The `className` attribute of the first `body` element directly under
the document root, when present. -/
def bodyClassAttr : Node → Option String
  | Node.element "html" _ cs =>
      match cs.find? (fun n => match n with
        | Node.element "body" _ _ => true
        | _ => false) with
      | some (Node.element _ attrs _) =>
          (attrs.find? (fun p => p.1 == "className")).map Prod.snd
      | _ => none
  | _ => none

/-- Split a character list on the space character. -/
def splitTokens : List Char → List (List Char)
  | [] => [[]]
  | c :: cs =>
      match splitTokens cs with
      | [] => if c = ' ' then [[], []] else [[c]]
      | g :: gs => if c = ' ' then [] :: g :: gs else (c :: g) :: gs

/-- The space-separated tokens of a class string. -/
def classTokens (s : String) : List String :=
  (splitTokens s.data).map (fun cs => String.mk cs)

mutual

/-- The `className` attribute of the first `p` element in the tree, when
present. -/
def firstParagraphClass : Node → Option String
  | Node.text _ => none
  | Node.element t attrs cs =>
      if t == "p" then (attrs.find? (fun p => p.1 == "className")).map Prod.snd
      else firstParagraphClassList cs

/-- The `className` attribute of the first `p` element across a list of
trees, when present. -/
def firstParagraphClassList : List Node → Option String
  | [] => none
  | n :: ns =>
      match firstParagraphClass n with
      | some c => some c
      | none => firstParagraphClassList ns

end

/-- Modelled from the spec: the process-start failure taxonomy. The spec
(sections 4.1 and 7) defines exactly one failure mode — the external font
asset failing to load at process start — and the loader that can fail is
`next/font/google` code, not under `src/`. -/
inductive StartupError where
  | fontLoadFailure
deriving DecidableEq, Repr

/-- Modelled from the spec: process start resolves the font once; if the
font asset is unavailable this is fatal and the process does not serve,
otherwise the resolved font token is held for the process lifetime. -/
def startProcess (fontAvailable : Bool) : Except StartupError NextFont :=
  if fontAvailable then Except.ok courier else Except.error StartupError.fontLoadFailure

/-- Serving the default route once the process has started: a total
function — the Home View and Layout renders have no error conditions. -/
def serveDefaultRoute (_ : Unit) : Node := RootLayout (Home ())

set_option maxRecDepth 10000

/-- C1: for every render of the default route, the produced document
contains exactly one heading element whose text is exactly "Data Analyzer"
and exactly one paragraph whose text is exactly "Welcome to your data
analysis dashboard.", both verbatim, and the whole rendered output is a
fixed markup string with no additional dynamic content injected. -/
theorem default_route_unique_heading_and_paragraph :
    countNodes (isHeadingWithText "Data Analyzer") defaultDocument = 1 ∧
    countNodes (isParagraphWithText "Welcome to your data analysis dashboard.")
      defaultDocument = 1 ∧
    render defaultDocument =
      "<html lang=\"en\"><body className=\"__variable--font-courier antialiased\"><div className=\"min-h-screen p-8 font-mono\"><main className=\"max-w-4xl mx-auto\"><h1 className=\"text-4xl font-bold mb-8\">Data Analyzer</h1><p className=\"text-lg text-foreground/80\">Welcome to your data analysis dashboard.</p></main></div></body></html>" := by
  refine ⟨by decide, by decide, by decide⟩

/-- C2 counterexample: the claim states the description metadata resolves
to "Powerful data analysis and visualization dashboard." with a trailing
period; in the source the description has no trailing period. -/
theorem metadata_description_period_refuted :
    ¬(metadata.description = "Powerful data analysis and visualization dashboard.") := by
  decide

/-- C2 (amended): on every route that does not override them (no route in
this core overrides them), the title metadata resolves to "Data Analyzer"
and the description metadata resolves to "Powerful data analysis and
visualization dashboard" with no trailing period. -/
theorem metadata_resolves :
    metadata.title = "Data Analyzer" ∧
    metadata.description = "Powerful data analysis and visualization dashboard" := by
  decide

/-- C3: for every nested content value, rendering the Root Layout with
that content yields a document whose body contains exactly that content,
unmodified — the Layout never alters or strips its nested content. -/
theorem layout_preserves_children (c : Node) :
    bodyChildren (RootLayout c) = some [c] := rfl

/-- C4: for every nested content value given to the Root Layout, the
rendered document's root html element carries the language attribute
"en". -/
theorem layout_lang_en (c : Node) : docLang (RootLayout c) = some "en" := rfl

/-- C5: the Home View is a deterministic constant function of no
arguments — any two renders produce the same tree and byte-identical
serialized output. -/
theorem home_deterministic (u v : Unit) :
    Home u = Home v ∧ render (Home u) = render (Home v) := ⟨rfl, rfl⟩

/-- C6: the font token is configured with exactly the two weight variants
400 and 700, restricted to a single character subset, is monospace-classed,
and it is the only font declared by this core. -/
theorem font_configuration :
    courier.weight = ["400", "700"] ∧
    courier.subsets = ["latin"] ∧
    courier.subsets.length = 1 ∧
    courier.category = "monospace" ∧
    declaredFonts = [courier] ∧
    declaredFonts.length = 1 := by
  refine ⟨rfl, rfl, rfl, rfl, rfl, rfl⟩

/-- C7: for every render produced by the Root Layout, the body element's
class attribute holds exactly two tokens: the resolved font style token
and the visual-smoothing hint "antialiased", and nothing else. -/
theorem body_class_token_and_smoothing_only (c : Node) :
    (bodyClassAttr (RootLayout c)).map classTokens =
      some [courier.className, "antialiased"] := by
  have h : bodyClassAttr (RootLayout c) = some (courier.className ++ " antialiased") := rfl
  rw [h]
  decide

/-- C8: there is exactly one failure mode — the font asset failing to
load at process start, which is fatal (the process starts iff the font is
available); once started, serving the default route is a total render with
no error conditions, always producing the full fixed document. -/
theorem single_fatal_failure_mode (a : Bool) :
    (∀ e : StartupError, e = StartupError.fontLoadFailure) ∧
    ((∃ f, startProcess a = Except.ok f) ↔ a = true) ∧
    serveDefaultRoute () = defaultDocument := by
  refine ⟨fun e => by cases e; rfl, ?_, rfl⟩
  cases a with
  | false => exact ⟨fun ⟨f, h⟩ => by simp [startProcess] at h, fun h => by simp at h⟩
  | true => exact ⟨fun _ => rfl, fun _ => ⟨courier, rfl⟩⟩

/-- C9: the Home View's descriptive paragraph is styled with the class
token "text-foreground/80" — exactly 80% opacity of the body foreground
color — alongside "text-lg" and nothing else. -/
theorem home_paragraph_opacity :
    firstParagraphClass (Home ()) = some "text-lg text-foreground/80" ∧
    (firstParagraphClass (Home ())).map classTokens =
      some ["text-lg", "text-foreground/80"] := by
  refine ⟨by decide, by decide⟩

/-- C10: the font style token is exposed under the fixed CSS variable
name "--font-courier", bound to the Courier Prime family. -/
theorem font_variable_name :
    courier.fontVariable = "--font-courier" ∧ courier.family = "Courier Prime" := by
  decide
